import Mathlib

/-!
Verification of the table-rental timing and lamp-synchronization subsystem of
the `ygyi` point-of-sale application.

The TypeScript source is shallowly embedded below.  Conventions:

* JavaScript millisecond timestamps and minute counts are `Nat`.
* An optional (possibly `undefined`) document field is an `Option`.
* JavaScript truthiness of numbers (`undefined` and `0` are falsy) and of
  strings (`undefined` and `""` are falsy) is made explicit via `truthyNum` /
  `truthyStr`, and `x || d` via `jsOrNum` / `jsOrStr`.
* A Firestore merge/update write is a `TableUpdate`: each field is either left
  untouched (`keep`), deleted (`del`, the `deleteField()` sentinel), set to a
  value (`set`), or — for the one code path that can forward a possibly
  `undefined` value into a write — `undef`; Firestore rejects a write
  containing an `undefined` value, which `applyUpdate` models by returning
  `none`.
* Each event handler calls `Date.now()` one or more times within a single
  synchronous run; all those calls are modelled by the single parameter `now`.
-/

namespace Ygyi

/-- Table occupancy status (`types.ts`: `status: available | occupied`). -/
inductive TStatus
  | available
  | occupied
deriving DecidableEq, Repr

/-- The rental-relevant fields of a `Table` document (`types.ts` lines 45-58).
The lamp-override URL fields are omitted: no claim below depends on them. -/
structure Table where
  id : String
  name : String
  status : TStatus
  startTime : Option Nat := none
  duration : Option Nat := none
  endTime : Option Nat := none
  costPerHour : Nat := 0
  currentCustomer : Option String := none
deriving DecidableEq, Repr

/-- JS truthiness of a possibly-absent number: `undefined` and `0` are falsy. -/
def truthyNum : Option Nat → Bool
  | none => false
  | some n => n != 0

/-- JS truthiness of a possibly-absent string: `undefined` and `""` are falsy. -/
def truthyStr : Option String → Bool
  | none => false
  | some s => s != ""

/-- JavaScript `x || d` on a possibly-absent number. -/
def jsOrNum (x : Option Nat) (d : Nat) : Nat :=
  if truthyNum x then x.getD d else d

/-- JavaScript `x || d` on a possibly-absent string. -/
def jsOrStr (x : Option String) (d : String) : String :=
  if truthyStr x then x.getD d else d

/-- What a write does to one numeric document field. -/
inductive NumOp
  | keep
  | del
  | set (n : Nat)
  | undef
deriving DecidableEq, Repr

/-- What a write does to one string document field. -/
inductive StrOp
  | keep
  | del
  | set (s : String)
deriving DecidableEq, Repr

/-- One Firestore merge/update write against a table document, restricted to
the fields the rental subsystem touches. -/
structure TableUpdate where
  status : Option TStatus := none
  startTime : NumOp := .keep
  endTime : NumOp := .keep
  duration : NumOp := .keep
  currentCustomer : StrOp := .keep
deriving DecidableEq, Repr

/-- Effect of a `NumOp` on a stored field.  The outer `Option` is the fate of
the whole write: Firestore rejects a write that carries an `undefined` value. -/
def applyNum : Option Nat → NumOp → Option (Option Nat)
  | v, .keep => some v
  | _, .del => some none
  | _, .set n => some (some n)
  | _, .undef => none

/-- Effect of a `StrOp` on a stored field. -/
def applyStr : Option String → StrOp → Option String
  | v, .keep => v
  | _, .del => none
  | _, .set s => some s

/-- Apply a merge/update write to a table document; `none` when Firestore
rejects the write (an `undefined` field value). -/
def applyUpdate (t : Table) (u : TableUpdate) : Option Table :=
  match applyNum t.startTime u.startTime,
        applyNum t.endTime u.endTime,
        applyNum t.duration u.duration with
  | some st, some et, some du =>
    some { t with
      status := u.status.getD t.status
      startTime := st
      endTime := et
      duration := du
      currentCustomer := applyStr t.currentCustomer u.currentCustomer }
  | _, _, _ => none

/-- A lamp-controller command as issued through `controlLamp(num, action, durationSec)`
(part_000 line 84): an ephemeral value object, never persisted. -/
inductive LampAction
  | on
  | off
  | toggle
deriving DecidableEq, Repr

structure LampCmd where
  channel : Nat
  action : LampAction
  durationSec : Option Nat := none
deriving DecidableEq, Repr

/-! ## Table Number Resolver (part_000 lines 137-142)

```ts
function deriveTableNumber(tableName: string | undefined, index: number) {
  if (!tableName) return index + 1;
  const m = tableName.match(/(\d+)/);
  if (m) return Number(m[1]);
  return index + 1;
}
```
-/

/-- The match of the regex `/(\d+)/`: scan left to right; at the first digit,
capture it together with every immediately following digit (the first maximal
run of decimal digits); `none` when the string has no digit. -/
def firstDigitRun : List Char → Option (List Char)
  | [] => none
  | c :: cs =>
    if c.isDigit then some (c :: cs.takeWhile Char.isDigit)
    else firstDigitRun cs

/-- `Number` applied to a non-empty string of decimal digits. -/
def parseDigits (cs : List Char) : Nat :=
  List.foldl (fun acc c => acc * 10 + (c.toNat - 48)) 0 cs

/-- Shallow embedding of `deriveTableNumber`.  `!tableName` is true for both
`undefined` and the empty string. -/
def deriveTableNumber (tableName : Option String) (index : Nat) : Nat :=
  match tableName with
  | none => index + 1
  | some s =>
    if s = "" then index + 1
    else
      match firstDigitRun s.toList with
      | some run => parseDigits run
      | none => index + 1

/-! ## Auto-Expiry Monitor (part_000 lines 372-394 and part_001 lines 300-321)

Both screens run the same interval body: for each table,
```ts
if (t.status === occupied && t.endTime && now >= t.endTime) {
  await updateDoc(..., {
    status: available,
    startTime: deleteField(),
    endTime: deleteField(),
    duration: 0,
    currentCustomer: deleteField()
  });
}
```
-/

/-- The update written by the auto-expiry tick when a table has expired:
status to `available`, `startTime`/`endTime`/`currentCustomer` deleted,
`duration` set to 0. -/
def autoExpiryWrite : TableUpdate :=
  { status := some .available
    startTime := .del
    endTime := .del
    duration := .set 0
    currentCustomer := .del }

/-- One auto-expiry check on one table at time `now`: the write it issues, or
`none` when the guard `t.status === occupied && t.endTime && now >= t.endTime`
is false (no write at all). -/
def autoExpiryCheck (now : Nat) (t : Table) : Option TableUpdate :=
  match t.status, t.endTime with
  | .occupied, some e => if e ≠ 0 ∧ e ≤ now then some autoExpiryWrite else none
  | _, _ => none

/-! ## Manual stop — `StopTableModal.handleConfirmStop` (part_000 lines 1394-1428)

The component is
`const StopTableModal: React.FC<...> = ({ storeId, table, onClose }) => ...`;
its handler first issues a `setDoc(..., {...}, { merge: true })` reset, then in
an inner `try` block evaluates
```ts
const idx = tables.findIndex(t => t.id === table.id);
const num = deriveTableNumber(table.name, idx >= 0 ? idx : 0);
await controlLamp(num, off);
```
The identifier `tables` is a free variable here; whether it is bound depends on
the enclosing scope, which we model explicitly. -/

/-- The merge write issued by `handleConfirmStop` (part_000 lines 1403-1409):
status `available`, `startTime`/`endTime`/`duration` set to `0`,
`currentCustomer` set to the empty string — values written, not field deletions. -/
def stopResetWrite : TableUpdate :=
  { status := some .available
    startTime := .set 0
    endTime := .set 0
    duration := .set 0
    currentCustomer := .set "" }

/-- Observable outcome of one run of `handleConfirmStop`. -/
structure StopRun where
  storeWrites : List (String × TableUpdate)
  lampCommands : List LampCmd
  modalClosed : Bool
  alertMsg : Option String
deriving DecidableEq, Repr

/-- Every identifier visible inside the body of `StopTableModal` in part_000:
the module-scope bindings (imports on lines 1-72 and the top-level
declarations) together with the component's own props and locals.
Notably, `tables` is bound only inside other components (`App` line 268 and
the props of `BilliardScreen`, `MoveTableModal`, `TableManagementModal`,
`CheckoutModal`) and so is absent here. -/
def stopTableModalScope : List String :=
  [ -- imports (lines 1-72)
   "React", "useState", "useEffect", "useMemo",
   "LayoutDashboard", "Coffee", "Target", "Settings", "Users", "LogOut",
   "Plus", "Minus", "Trash2", "Save", "Search", "History", "AlertTriangle",
   "PlayCircle", "StopCircle", "ExternalLink", "Edit", "XCircle", "Package",
   "ChefHat", "Receipt", "FileText", "Clock", "BellRing", "ClipboardCheck",
   "ShoppingCart", "ArrowRightLeft", "Power", "Wrench", "Printer",
   "UserCircle", "Send", "UserPlus", "Store", "Wifi", "Instagram", "Phone",
   "Upload", "Menu", "X",
   "db", "initializeStore",
   "collection", "query", "where", "onSnapshot", "addDoc", "updateDoc",
   "setDoc", "doc", "deleteDoc", "orderBy", "getDoc", "runTransaction",
   "deleteField",
   "BarChart", "Bar", "XAxis", "YAxis", "CartesianGrid", "Tooltip",
   "ResponsiveContainer", "LineChart", "Line",
   "User", "Product", "Table", "Transaction", "CartItem", "Variant",
   "Ingredient", "RecipeItem", "Shift", "Operator", "StoreSettings",
   "BluetoothPrinter",
   -- top-level declarations of part_000
   "LAMP_BASE_URL", "TABLE_LAMP_URL", "controlLamp", "controlLampForTable",
   "deriveTableNumber", "STORE_KEY", "SHIFT_KEY", "ModalProps", "Modal",
   "ErrorBoundary", "App", "SidebarItemProps", "SidebarItem", "MobileNavItem",
   "ShiftManagementModalProps", "ShiftManagementModal", "DashboardScreen",
   "BilliardScreenProps", "BilliardScreen", "TableCardProps", "TableCard",
   "StopTableModal", "TableDurationModalProps", "TableDurationModal",
   "MoveTableModal", "TableManagementModal", "CafeScreenProps", "CafeScreen",
   "ProductCard", "InventoryScreen", "AuditTable", "AuditRow",
   "AddProductModal", "TransactionHistoryScreen", "SettingsScreen",
   "CheckoutModalProps", "CheckoutModal",
   -- props and locals of StopTableModal
   "storeId", "table", "onClose", "loading", "setLoading",
   "handleConfirmStop", "tableRef"]

/-- Shallow embedding of `handleConfirmStop`.  `tablesBinding` is the value of
the free identifier `tables` in the scope of the handler (`none` = unbound, so
`tables.findIndex(...)` throws a `ReferenceError`).  The merge reset is
awaited first; the lamp-off block sits in its own `try/catch` whose `catch`
only logs a warning, after which `onClose()` runs; the outer `catch` (which
would alert) is therefore never reached via the lamp block. -/
def handleConfirmStop (tablesBinding : Option (List Table)) (table : Table) :
    StopRun :=
  let resetWrite := (table.id, stopResetWrite)
  let lampBlock : Except String (List LampCmd) :=
    match tablesBinding with
    | none => .error "ReferenceError: tables is not defined"
    | some tables =>
      let idx := (tables.findIdx? (fun t => t.id == table.id)).getD 0
      .ok [{ channel := deriveTableNumber (some table.name) idx
             action := .off }]
  match lampBlock with
  | .ok cmds =>
    { storeWrites := [resetWrite], lampCommands := cmds
      modalClosed := true, alertMsg := none }
  | .error _ =>
    { storeWrites := [resetWrite], lampCommands := []
      modalClosed := true, alertMsg := none }

/-! ## Move/Transfer — `MoveTableModal` (part_000 lines 1524-1581)

```ts
const MoveTableModal = ({ storeId, fromTable, tables, onClose }) => {
  const availableTables = tables.filter(t => t.status === available);
  const handleMove = async (toTableId: string) => {
    if (!toTableId || loading) return;
    ...
  };
  ...
  availableTables.map(t => <button onClick={() => handleMove(t.id)} ...>)
```
The modal renders one destination button per *available* table; `handleMove`
is reachable only through those buttons. -/

/-- The destination tables the modal offers (part_000 line 1526). -/
def availableTables (tables : List Table) : List Table :=
  tables.filter (fun t => t.status == TStatus.available)

/-- The destination write `moveData` (part_000 lines 1536-1542), with the
fallbacks `Number(x || default)` of the code made explicit. -/
def moveData (fromTable : Table) (now : Nat) : TableUpdate :=
  { status := some .occupied
    startTime := .set (jsOrNum fromTable.startTime now)
    endTime := .set (jsOrNum fromTable.endTime (now + 3600000))
    duration := .set (jsOrNum fromTable.duration 60)
    currentCustomer := .set (jsOrStr fromTable.currentCustomer "Pelanggan") }

/-- The origin reset write (part_000 lines 1548-1554): the same field values
as the reset of the manual stop — written values, not field deletions. -/
def moveOriginReset : TableUpdate :=
  { status := some .available
    startTime := .set 0
    endTime := .set 0
    duration := .set 0
    currentCustomer := .set "" }

/-- `Math.max(0, Math.ceil((endTime - now) / 1000))` on millisecond
timestamps; `Nat` subtraction already truncates the negative case to the
`Math.max(0, ·)` result. -/
def remainingSecCeil (endTime now : Nat) : Nat :=
  (endTime - now + 999) / 1000

/-- Observable effects of one `handleMove` run: the (ordered) store writes and
the lamp commands it issues. -/
structure MoveEffects where
  writes : List (String × TableUpdate) := []
  lamps : List LampCmd := []
deriving DecidableEq, Repr

/-- Shallow embedding of `handleMove(toTableId)` (part_000 lines 1528-1581):
guard `!toTableId`, destination merge write, origin reset write, then the
best-effort lamp block (origin `off`, destination `on` with the remaining
seconds derived from `moveData.endTime`). -/
def handleMove (tables : List Table) (fromTable : Table) (toTableId : String)
    (now : Nat) : MoveEffects :=
  if toTableId = "" then {}
  else
    let md := moveData fromTable now
    let fromIdx := (tables.findIdx? (fun t => t.id == fromTable.id)).getD 0
    let toIdx := (tables.findIdx? (fun t => t.id == toTableId)).getD 0
    let fromNum := deriveTableNumber (some fromTable.name) fromIdx
    let toName := (tables.find? (fun t => t.id == toTableId)).map Table.name
    let toNum := deriveTableNumber toName toIdx
    let e := jsOrNum fromTable.endTime (now + 3600000)
    let dur : Option Nat := if e ≠ 0 then some (remainingSecCeil e now) else none
    { writes := [(toTableId, md), (fromTable.id, moveOriginReset)]
      lamps := [{ channel := fromNum, action := .off },
                { channel := toNum, action := .on, durationSec := dur }] }

/-- The move operation as it is invocable through the modal: an attempt on
destination `toTableId` runs `handleMove` iff the modal rendered a button for
that id, i.e. iff some table with that id is in `availableTables`; otherwise
nothing happens (no store write, no lamp command). -/
def moveTableModalAttempt (tables : List Table) (fromTable : Table)
    (toTableId : String) (now : Nat) : Option MoveEffects :=
  if (availableTables tables).any (fun t => t.id == toTableId) then
    some (handleMove tables fromTable toTableId now)
  else none

/-! ## Checkout, part_000 — `CheckoutModal.handleProcessPayment` table branch
(lines 2833-2856)

```ts
const table = tables.find(t => t.id === item.tableId);
if (table) {
  const isTopup = table.status === occupied;
  const durationMs = (item.duration || 60) * 60 * 1000;
  let newData;
  if (isTopup) {
    newData = { endTime: (table.endTime || Date.now()) + durationMs,
                duration: (table.duration || 0) + (item.duration || 0) };
  } else {
    newData = { status: occupied, startTime: Date.now(),
                duration: item.duration || 60,
                endTime: Date.now() + durationMs,
                currentCustomer: customerName };
  }
  batchPromises.push(updateDoc(..., newData));
}
```
There is no rejection branch: an occupied table is treated as a top-up. -/

/-- The update that the checkout of part_000 pushes for a cart line on `table`
with optional minute count `itemDuration` (`CartItem.duration?`). -/
def checkoutTableWrite (table : Table) (itemDuration : Option Nat)
    (customerName : String) (now : Nat) : TableUpdate :=
  let durationMs := jsOrNum itemDuration 60 * 60 * 1000
  if table.status == TStatus.occupied then
    { endTime := .set (jsOrNum table.endTime now + durationMs)
      duration := .set (jsOrNum table.duration 0 + jsOrNum itemDuration 0) }
  else
    { status := some .occupied
      startTime := .set now
      duration := .set (jsOrNum itemDuration 60)
      endTime := .set (now + durationMs)
      currentCustomer := .set customerName }

/-! ## Checkout, part_001 — `handleCheckout` table branch (lines 484-505)

```ts
} else if (item.itemType === table && item.tableId && item.duration) {
  ... const tData = tableSnap.data() as Table;
  const now = Date.now();
  let newEndTime = now + (item.duration * 60 * 1000);
  if (tData.status === occupied && tData.endTime) {
    newEndTime = tData.endTime + (item.duration * 60 * 1000);
  }
  transaction.update(tableRef, {
    status: occupied,
    startTime: tData.status === available ? now : tData.startTime,
    endTime: newEndTime,
    duration: (tData.duration || 0) + item.duration,
    currentCustomer: customerName
  });
}
```
Note the top-up path re-asserts `status`/`startTime` and overwrites
`currentCustomer` with the customer name of the checkout. -/

/-- The update that the checkout of part_001 issues for a table cart line, or
`none` when the `item.duration` truthiness guard skips the branch.  When the
table is not `available` the write forwards `tData.startTime` verbatim, which
is an `undefined`-valued (rejected) write if that field is absent. -/
def checkout1TableWrite (tData : Table) (itemDuration : Option Nat)
    (customerName : String) (now : Nat) : Option TableUpdate :=
  if truthyNum itemDuration then
    let d := itemDuration.getD 0
    let newEndTime :=
      if tData.status == TStatus.occupied && truthyNum tData.endTime then
        tData.endTime.getD 0 + d * 60 * 1000
      else now + d * 60 * 1000
    some
      { status := some .occupied
        startTime :=
          if tData.status == TStatus.available then .set now
          else match tData.startTime with
               | some s => .set s
               | none => .undef
        endTime := .set newEndTime
        duration := .set (jsOrNum tData.duration 0 + d)
        currentCustomer := .set customerName }
  else none

/-! ## Concrete sample tables used by counterexamples and witnesses -/

/-- An occupied table: rented for 60 minutes starting at timestamp 1000. -/
def sampleOccupied : Table :=
  { id := "t1", name := "Meja 1", status := .occupied, startTime := some 1000,
    duration := some 60, endTime := some 3601000, costPerHour := 20000,
    currentCustomer := some "Andi" }

/-- An available table whose timing fields are at the available baseline. -/
def sampleAvailable : Table :=
  { id := "t2", name := "Meja 2", status := .available, duration := some 0,
    costPerHour := 25000 }

/-- An occupied table whose rental window has already elapsed by time 4000000. -/
def sampleExpired : Table :=
  { id := "t9", name := "Meja 9", status := .occupied, startTime := some 1000,
    duration := some 60, endTime := some 3601000, costPerHour := 20000,
    currentCustomer := some "Citra" }

/-- Move origin: rented for 60 minutes at timestamp 1000000, so its rental
ends at 4600000. -/
def moveFromSample : Table :=
  { id := "A", name := "Meja 1", status := .occupied, startTime := some 1000000,
    duration := some 60, endTime := some 4600000, costPerHour := 20000,
    currentCustomer := some "Andi" }

/-- Move destination: an available table. -/
def moveToSample : Table :=
  { id := "B", name := "Meja 2", status := .available, costPerHour := 20000 }

/-- An occupied table used as a move origin in the rejection witness. -/
def rejSampleA : Table :=
  { id := "A", name := "Meja 1", status := .occupied, startTime := some 1000,
    duration := some 60, endTime := some 3601000, costPerHour := 20000,
    currentCustomer := some "Andi" }

/-- A second occupied table: not offered as a move destination. -/
def rejSampleB : Table :=
  { id := "B", name := "Meja 2", status := .occupied, startTime := some 2000,
    duration := some 30, endTime := some 1802000, costPerHour := 20000,
    currentCustomer := some "Budi" }

/-! ## Helper lemmas -/

/-- `firstDigitRun` finds exactly the maximal digit run that starts at the
first digit position, and nothing when the list has no digit. -/
theorem firstDigitRun_eq (l : List Char) :
    firstDigitRun l =
      if l.any Char.isDigit
      then some ((l.dropWhile (fun c => !c.isDigit)).takeWhile Char.isDigit)
      else none := by
  induction l with
  | nil => rfl
  | cons c cs ih =>
    by_cases hc : c.isDigit
    · simp [firstDigitRun, hc, List.dropWhile, List.takeWhile]
    · simp [firstDigitRun, hc, List.dropWhile, ih]

/-- `deriveTableNumber` on a non-empty name, routed through `firstDigitRun_eq`. -/
theorem deriveTableNumber_some (s : String) (idx : Nat) (hs : s ≠ "") :
    deriveTableNumber (some s) idx =
      if s.toList.any Char.isDigit
      then parseDigits ((s.toList.dropWhile (fun c => !c.isDigit)).takeWhile Char.isDigit)
      else idx + 1 := by
  simp only [deriveTableNumber, if_neg hs, firstDigitRun_eq]
  cases h : s.toList.any Char.isDigit <;> simp [h]

/-- The JS fallback `x || 0` on a present number is the number itself. -/
theorem jsOrNum_some_zero (n : Nat) : jsOrNum (some n) 0 = n := by
  by_cases h : n = 0 <;> simp [jsOrNum, truthyNum, h]
/-! ## Claim C1 — invalid-transition rejection -/

/-- Claim C1, counterexample: a Start issued for the occupied `sampleOccupied`
is not rejected: the checkout table branch of part_000 produces a top-up store
write whose application changes the record, contradicting the claim that the
attempt is rejected before any store write with the record left unchanged. -/
theorem start_on_occupied_counterexample :
    sampleOccupied.status = .occupied ∧
    checkoutTableWrite sampleOccupied (some 60) "Budi" 5000000 =
      { endTime := .set (3601000 + 60 * 60 * 1000), duration := .set (60 + 60) } ∧
    applyUpdate sampleOccupied (checkoutTableWrite sampleOccupied (some 60) "Budi" 5000000) =
      some { sampleOccupied with
             endTime := some 7201000
             duration := some 120 } ∧
    some { sampleOccupied with
           endTime := some 7201000
           duration := some 120 } ≠ some sampleOccupied := by decide

/-- Claim C1 (amended): neither screen rejects an invalid transition.  A Start
on an occupied table is silently coerced into a top-up — the store write
proceeds and extends `endTime`/`duration`, changing the record — and the
manual Stop handler issues its availability-baseline reset write
unconditionally, for an available table just as for an occupied one. -/
theorem no_invalid_transition_rejection (t tstop : Table) (x e d : Nat)
    (cust : String) (now : Nat)
    (hocc : t.status = .occupied) (het : t.endTime = some e) (he0 : 0 < e)
    (hdur : t.duration = some d) (hx : 0 < x)
    (hav : tstop.status = .available) :
    checkoutTableWrite t (some x) cust now =
      { endTime := .set (e + x * 60 * 1000), duration := .set (d + x) } ∧
    applyUpdate t (checkoutTableWrite t (some x) cust now) =
      some { t with
             endTime := some (e + x * 60 * 1000)
             duration := some (d + x) } ∧
    { t with
      endTime := some (e + x * 60 * 1000)
      duration := some (d + x) } ≠ t ∧
    (handleConfirmStop none tstop).storeWrites = [(tstop.id, stopResetWrite)] ∧
    applyUpdate tstop stopResetWrite =
      some { tstop with
             status := .available
             startTime := some 0
             endTime := some 0
             duration := some 0
             currentCustomer := some "" } := by
  have hx' : (x != 0) = true := by simp [Nat.pos_iff_ne_zero.mp hx]
  have he' : (e != 0) = true := by simp [Nat.pos_iff_ne_zero.mp he0]
  have hw : checkoutTableWrite t (some x) cust now =
      { endTime := .set (e + x * 60 * 1000), duration := .set (d + x) } := by
    simp [checkoutTableWrite, hocc, het, hdur, jsOrNum, truthyNum, hx',
          jsOrNum_some_zero]
    omega
  refine ⟨hw, by rw [hw]; rfl, ?_, rfl, rfl⟩
  intro hcontra
  have hfield := congrArg Table.endTime hcontra
  simp at hfield
  rw [het] at hfield
  have : e + x * 60 * 1000 = e := Option.some.inj hfield
  omega

/-- Claim C1, witness: the amended theorem applied to `sampleOccupied` (Start
side) and `sampleAvailable` (Stop side). -/
theorem no_invalid_transition_rejection_witness :
    sampleOccupied.status = .occupied ∧ sampleAvailable.status = .available ∧
    ({ sampleOccupied with
       endTime := some (3601000 + 60 * 60 * 1000)
       duration := some (60 + 60) } ≠ sampleOccupied ∧
     (handleConfirmStop none sampleAvailable).storeWrites =
       [(sampleAvailable.id, stopResetWrite)]) :=
  ⟨rfl, rfl,
   (no_invalid_transition_rejection sampleOccupied sampleAvailable 60 3601000 60
      "Budi" 5000000 rfl rfl (by decide) rfl (by decide) rfl).2.2.1,
   (no_invalid_transition_rejection sampleOccupied sampleAvailable 60 3601000 60
      "Budi" 5000000 rfl rfl (by decide) rfl (by decide) rfl).2.2.2.1⟩

/-! ## Claim C2 — move preserves remaining time -/

/-- Claim C2, counterexample: after the move of `moveFromSample` to table B,
the origin reset leaves `startTime` present with value 0 (`some 0`), so the
timing fields of the origin are zeroed, not cleared (deleted) as claimed. -/
theorem move_zeroes_counterexample :
    (handleMove [moveFromSample, moveToSample] moveFromSample "B" 1600000).writes =
      [("B", moveData moveFromSample 1600000), ("A", moveOriginReset)] ∧
    applyUpdate moveFromSample moveOriginReset =
      some { moveFromSample with
             status := .available
             startTime := some 0
             endTime := some 0
             duration := some 0
             currentCustomer := some "" } ∧
    (applyUpdate moveFromSample moveOriginReset).map Table.startTime ≠
      some none := by decide

/-- Claim C2 (amended): for a move of an active rental from A (whose
`startTime`, `endTime`, `duration`, `currentCustomer` are present and
non-degenerate) to B, the destination write copies exactly the pre-move values
of A — in particular the destination `endTime` equals the original `endTime`
of A, so the remaining time is preserved — and A is reset to the available
baseline with `startTime`, `endTime`, `duration` set to 0 and
`currentCustomer` set to the empty string (zeroed, not deleted). -/
theorem move_preserves_remaining_time (tables : List Table) (A B : Table)
    (toId : String) (now s e d : Nat) (c : String)
    (hs : A.startTime = some s) (hs0 : 0 < s)
    (he : A.endTime = some e) (he0 : 0 < e)
    (hd : A.duration = some d) (hd0 : 0 < d)
    (hc : A.currentCustomer = some c) (hc0 : c ≠ "")
    (hto : toId ≠ "") :
    (handleMove tables A toId now).writes =
      [(toId, moveData A now), (A.id, moveOriginReset)] ∧
    moveData A now =
      { status := some .occupied
        startTime := .set s
        endTime := .set e
        duration := .set d
        currentCustomer := .set c } ∧
    applyUpdate B (moveData A now) =
      some { B with
             status := .occupied
             startTime := some s
             endTime := some e
             duration := some d
             currentCustomer := some c } ∧
    applyUpdate A moveOriginReset =
      some { A with
             status := .available
             startTime := some 0
             endTime := some 0
             duration := some 0
             currentCustomer := some "" } := by
  have hmd : moveData A now =
      { status := some .occupied
        startTime := .set s
        endTime := .set e
        duration := .set d
        currentCustomer := .set c } := by
    simp [moveData, jsOrNum, jsOrStr, truthyNum, truthyStr, hs, he, hd, hc,
          Nat.pos_iff_ne_zero.mp hs0, Nat.pos_iff_ne_zero.mp he0,
          Nat.pos_iff_ne_zero.mp hd0, hc0]
  refine ⟨?_, hmd, ?_, rfl⟩
  · simp [handleMove, hto]
  · rw [hmd]; rfl

/-- Claim C2, witness: the amended theorem applied to the concrete move of
`moveFromSample` (10 minutes into a 60-minute rental) onto `moveToSample`. -/
theorem move_preserves_remaining_time_witness :
    moveFromSample.startTime = some 1000000 ∧
    moveFromSample.endTime = some 4600000 ∧
    moveFromSample.duration = some 60 ∧
    moveFromSample.currentCustomer = some "Andi" ∧
    ((handleMove [moveFromSample, moveToSample] moveFromSample "B" 1600000).writes =
       [("B", moveData moveFromSample 1600000), ("A", moveOriginReset)] ∧
     moveData moveFromSample 1600000 =
       { status := some .occupied
         startTime := .set 1000000
         endTime := .set 4600000
         duration := .set 60
         currentCustomer := .set "Andi" } ∧
     applyUpdate moveToSample (moveData moveFromSample 1600000) =
       some { moveToSample with
              status := .occupied
              startTime := some 1000000
              endTime := some 4600000
              duration := some 60
              currentCustomer := some "Andi" } ∧
     applyUpdate moveFromSample moveOriginReset =
       some { moveFromSample with
              status := .available
              startTime := some 0
              endTime := some 0
              duration := some 0
              currentCustomer := some "" }) :=
  ⟨rfl, rfl, rfl, rfl,
   move_preserves_remaining_time [moveFromSample, moveToSample] moveFromSample
     moveToSample "B" 1600000 1000000 4600000 60 "Andi"
     rfl (by decide) rfl (by decide) rfl (by decide) rfl (by decide) (by decide)⟩

/-! ## Claim C3 — move rejection -/

/-- Claim C3: through `MoveTableModal`, a move attempt performs no store write
and no lamp command whenever the destination is not available or the
destination is the origin itself: the modal offers exactly the available
tables as destinations, and an occupied origin (with unique table ids) is
never among them, so `moveTableModalAttempt` returns `none` in both cases. -/
theorem moveModal_rejects (tables : List Table) (fromTable target : Table)
    (now : Nat)
    (hmem : fromTable ∈ tables) (hocc : fromTable.status = .occupied)
    (huniq : (tables.map Table.id).Nodup) (htgt : target ∈ tables) :
    (target.status ≠ .available →
      moveTableModalAttempt tables fromTable target.id now = none) ∧
    (target.id = fromTable.id →
      moveTableModalAttempt tables fromTable target.id now = none) := by
  have hinj := List.inj_on_of_nodup_map huniq
  constructor
  · intro hna
    rw [moveTableModalAttempt, if_neg]
    intro h
    rw [List.any_eq_true] at h
    obtain ⟨u, hu, hid⟩ := h
    rw [availableTables, List.mem_filter] at hu
    have hue : u = target := hinj hu.1 htgt (by simpa using hid)
    rw [hue] at hu
    exact hna (by simpa using hu.2)
  · intro hidq
    rw [moveTableModalAttempt, if_neg]
    intro h
    rw [List.any_eq_true] at h
    obtain ⟨u, hu, hid⟩ := h
    rw [availableTables, List.mem_filter] at hu
    have hue : u = fromTable := by
      apply hinj hu.1 hmem
      rw [hidq] at hid
      simpa using hid
    rw [hue] at hu
    have : fromTable.status = TStatus.available := by simpa using hu.2
    rw [hocc] at this
    exact TStatus.noConfusion this

/-- Claim C3, witness: with two occupied tables `rejSampleA`, `rejSampleB`, a
move from A to the occupied B and a move from A to A itself are both
rejected with no effects. -/
theorem moveModal_rejects_witness :
    rejSampleA ∈ [rejSampleA, rejSampleB] ∧
    rejSampleA.status = .occupied ∧
    ([rejSampleA, rejSampleB].map Table.id).Nodup ∧
    rejSampleB ∈ [rejSampleA, rejSampleB] ∧
    rejSampleB.status ≠ .available ∧
    moveTableModalAttempt [rejSampleA, rejSampleB] rejSampleA rejSampleB.id 999 = none ∧
    moveTableModalAttempt [rejSampleA, rejSampleB] rejSampleA rejSampleA.id 999 = none :=
  ⟨by decide, rfl, by decide, by decide, by decide,
   (moveModal_rejects [rejSampleA, rejSampleB] rejSampleA rejSampleB 999
      (by decide) rfl (by decide) (by decide)).1 (by decide),
   (moveModal_rejects [rejSampleA, rejSampleB] rejSampleA rejSampleA 999
      (by decide) rfl (by decide) (by decide)).2 rfl⟩

/-! ## Claim C4 — clearing timing fields -/

/-- Claim C4, counterexample: the manual stop write leaves `startTime` present
with value 0 on `sampleOccupied`, contradicting the claim that every
return-to-available path deletes the timing fields. -/
theorem stop_zeroes_counterexample :
    applyUpdate sampleOccupied stopResetWrite =
      some { sampleOccupied with
             status := .available
             startTime := some 0
             endTime := some 0
             duration := some 0
             currentCustomer := some "" } ∧
    (applyUpdate sampleOccupied stopResetWrite).map Table.startTime ≠
      some none := by decide

/-- Claim C4 (amended): only the auto-expiry path deletes `startTime` and
`endTime` via field deletion; the manual stop and the outgoing-move origin
reset (which issue the identical write) set them to 0 instead, leaving the
fields present with value zero. -/
theorem clearing_differs_by_path (t : Table) :
    autoExpiryWrite.startTime = .del ∧ autoExpiryWrite.endTime = .del ∧
    applyUpdate t autoExpiryWrite =
      some { t with
             status := .available
             startTime := none
             endTime := none
             duration := some 0
             currentCustomer := none } ∧
    stopResetWrite.startTime = .set 0 ∧ stopResetWrite.endTime = .set 0 ∧
    applyUpdate t stopResetWrite =
      some { t with
             status := .available
             startTime := some 0
             endTime := some 0
             duration := some 0
             currentCustomer := some "" } ∧
    moveOriginReset = stopResetWrite :=
  ⟨rfl, rfl, rfl, rfl, rfl, rfl, rfl⟩

/-! ## Claim C5 — Start sets the timing fields -/

/-- Claim C5: starting a rental on an available table with `d > 0` minutes at
time `now` writes `status = occupied`, `startTime = now`,
`endTime = now + d*60*1000` (so `endTime - startTime = d*60000`),
`duration = d` and the provided customer name — in part_000 exactly, and in
part_001 under the data-model invariant that an available table carries no
truthy residual `duration`. -/
theorem start_sets_fields (t : Table) (d : Nat) (cust : String) (now : Nat)
    (hav : t.status = .available) (hd : 0 < d) :
    checkoutTableWrite t (some d) cust now =
      { status := some .occupied
        startTime := .set now
        duration := .set d
        endTime := .set (now + d * 60 * 1000)
        currentCustomer := .set cust } ∧
    applyUpdate t (checkoutTableWrite t (some d) cust now) =
      some { t with
             status := .occupied
             startTime := some now
             endTime := some (now + d * 60 * 1000)
             duration := some d
             currentCustomer := some cust } ∧
    now + d * 60 * 1000 - now = d * 60000 ∧
    (truthyNum t.duration = false →
      checkout1TableWrite t (some d) cust now =
        some { status := some .occupied
               startTime := .set now
               endTime := .set (now + d * 60 * 1000)
               duration := .set d
               currentCustomer := .set cust }) := by
  have hd' : (d != 0) = true := by simp [Nat.pos_iff_ne_zero.mp hd]
  have hw : checkoutTableWrite t (some d) cust now =
      { status := some .occupied
        startTime := .set now
        duration := .set d
        endTime := .set (now + d * 60 * 1000)
        currentCustomer := .set cust } := by
    simp [checkoutTableWrite, hav, jsOrNum, truthyNum, hd']
  refine ⟨hw, by rw [hw]; rfl, by omega, ?_⟩
  intro hdur
  have htd : truthyNum (some d) = true := by simp [truthyNum, hd']
  simp [checkout1TableWrite, hav, htd, jsOrNum, hdur]

/-- Claim C5, witness: the theorem applied to `sampleAvailable` for a
60-minute rental at timestamp 1000000. -/
theorem start_sets_fields_witness :
    sampleAvailable.status = .available ∧ 0 < 60 ∧
    truthyNum sampleAvailable.duration = false ∧
    applyUpdate sampleAvailable
        (checkoutTableWrite sampleAvailable (some 60) "Dewi" 1000000) =
      some { sampleAvailable with
             status := .occupied
             startTime := some 1000000
             endTime := some (1000000 + 60 * 60 * 1000)
             duration := some 60
             currentCustomer := some "Dewi" } ∧
    checkout1TableWrite sampleAvailable (some 60) "Dewi" 1000000 =
      some { status := some .occupied
             startTime := .set 1000000
             endTime := .set (1000000 + 60 * 60 * 1000)
             duration := .set 60
             currentCustomer := .set "Dewi" } :=
  ⟨rfl, by decide, rfl,
   (start_sets_fields sampleAvailable 60 "Dewi" 1000000 rfl (by decide)).2.1,
   (start_sets_fields sampleAvailable 60 "Dewi" 1000000 rfl (by decide)).2.2.2 rfl⟩

/-! ## Claim C6 — top-up additivity -/

/-- Claim C6: topping up an occupied table by `x > 0` minutes adds
`x*60*1000` to `endTime` and `x` to `duration` in both screens, and the
concrete composition Start(30 min) then Top-up(15 min) on any available table
yields `duration = 45` and `endTime = startTime + 45*60000`. -/
theorem topup_additive (t : Table) (x e d s : Nat) (cust : String) (now : Nat)
    (hocc : t.status = .occupied) (het : t.endTime = some e) (he0 : 0 < e)
    (hdur : t.duration = some d) (hst : t.startTime = some s) (hx : 0 < x) :
    checkoutTableWrite t (some x) cust now =
      { endTime := .set (e + x * 60 * 1000), duration := .set (d + x) } ∧
    applyUpdate t (checkoutTableWrite t (some x) cust now) =
      some { t with
             endTime := some (e + x * 60 * 1000)
             duration := some (d + x) } ∧
    checkout1TableWrite t (some x) cust now =
      some { status := some .occupied
             startTime := .set s
             endTime := .set (e + x * 60 * 1000)
             duration := .set (d + x)
             currentCustomer := .set cust } ∧
    x * 60 * 1000 = x * 60000 ∧
    (∀ (t0 : Table) (c0 : String) (now0 : Nat) (c1 : String) (now1 : Nat),
      t0.status = TStatus.available →
      (applyUpdate t0 (checkoutTableWrite t0 (some 30) c0 now0)).bind
        (fun t1 => applyUpdate t1 (checkoutTableWrite t1 (some 15) c1 now1))
      = some { t0 with
               status := .occupied
               startTime := some now0
               endTime := some (now0 + 45 * 60000)
               duration := some 45
               currentCustomer := some c0 }) := by
  have hx' : (x != 0) = true := by simp [Nat.pos_iff_ne_zero.mp hx]
  have he' : (e != 0) = true := by simp [Nat.pos_iff_ne_zero.mp he0]
  have hw : checkoutTableWrite t (some x) cust now =
      { endTime := .set (e + x * 60 * 1000), duration := .set (d + x) } := by
    simp [checkoutTableWrite, hocc, het, hdur, jsOrNum, truthyNum, hx',
          jsOrNum_some_zero]
    omega
  have hw1 : checkout1TableWrite t (some x) cust now =
      some { status := some .occupied
             startTime := .set s
             endTime := .set (e + x * 60 * 1000)
             duration := .set (d + x)
             currentCustomer := .set cust } := by
    have hxt : truthyNum (some x) = true := by simp [truthyNum, hx']
    have hte : truthyNum (some e) = true := by simp [truthyNum, he']
    simp [checkout1TableWrite, hocc, het, hst, hdur, hxt, hte, jsOrNum_some_zero]
  refine ⟨hw, by rw [hw]; rfl, hw1, by ring, ?_⟩
  intro t0 c0 now0 c1 now1 h0
  have hws : checkoutTableWrite t0 (some 30) c0 now0 =
      { status := some .occupied
        startTime := .set now0
        duration := .set 30
        endTime := .set (now0 + 30 * 60 * 1000)
        currentCustomer := .set c0 } := by
    simp [checkoutTableWrite, h0, jsOrNum, truthyNum]
  rw [hws]
  have hmid : applyUpdate t0
      { status := some .occupied
        startTime := .set now0
        duration := .set 30
        endTime := .set (now0 + 30 * 60 * 1000)
        currentCustomer := .set c0 } =
      some { t0 with
             status := .occupied
             startTime := some now0
             endTime := some (now0 + 30 * 60 * 1000)
             duration := some 30
             currentCustomer := some c0 } := rfl
  rw [hmid, Option.some_bind']
  have hwt : checkoutTableWrite
      { t0 with
        status := .occupied
        startTime := some now0
        endTime := some (now0 + 30 * 60 * 1000)
        duration := some 30
        currentCustomer := some c0 } (some 15) c1 now1 =
      { endTime := .set (now0 + 30 * 60 * 1000 + 15 * 60 * 1000)
        duration := .set 45 } := by
    have hnz : (now0 + 30 * 60 * 1000 != 0) = true := by
      simp [Nat.add_eq_zero]
    simp [checkoutTableWrite, jsOrNum, truthyNum, hnz, jsOrNum_some_zero]
  rw [hwt]
  have harr : now0 + 30 * 60 * 1000 + 15 * 60 * 1000 = now0 + 45 * 60000 := by
    omega
  calc applyUpdate
        { t0 with
          status := .occupied
          startTime := some now0
          endTime := some (now0 + 30 * 60 * 1000)
          duration := some 30
          currentCustomer := some c0 }
        { endTime := .set (now0 + 30 * 60 * 1000 + 15 * 60 * 1000)
          duration := .set 45 }
      = some { t0 with
               status := .occupied
               startTime := some now0
               endTime := some (now0 + 30 * 60 * 1000 + 15 * 60 * 1000)
               duration := some 45
               currentCustomer := some c0 } := rfl
    _ = some { t0 with
               status := .occupied
               startTime := some now0
               endTime := some (now0 + 45 * 60000)
               duration := some 45
               currentCustomer := some c0 } :=
      congrArg (fun z => some { t0 with
        status := TStatus.occupied
        startTime := some now0
        endTime := some z
        duration := some 45
        currentCustomer := some c0 }) harr

/-- Claim C6, witness: the theorem applied to `sampleOccupied` with a
15-minute top-up. -/
theorem topup_additive_witness :
    sampleOccupied.status = .occupied ∧ sampleOccupied.endTime = some 3601000 ∧
    sampleOccupied.duration = some 60 ∧ sampleOccupied.startTime = some 1000 ∧
    0 < 15 ∧
    checkoutTableWrite sampleOccupied (some 15) "Budi" 5000000 =
      { endTime := .set (3601000 + 15 * 60 * 1000), duration := .set (60 + 15) } ∧
    checkout1TableWrite sampleOccupied (some 15) "Budi" 5000000 =
      some { status := some .occupied
             startTime := .set 1000
             endTime := .set (3601000 + 15 * 60 * 1000)
             duration := .set (60 + 15)
             currentCustomer := .set "Budi" } :=
  ⟨rfl, rfl, rfl, rfl, by decide,
   (topup_additive sampleOccupied 15 3601000 60 1000 "Budi" 5000000
      rfl rfl (by decide) rfl rfl (by decide)).1,
   (topup_additive sampleOccupied 15 3601000 60 1000 "Budi" 5000000
      rfl rfl (by decide) rfl rfl (by decide)).2.2.1⟩

/-! ## Claim C7 — top-up frame -/

/-- Claim C7, counterexample: in the part_001 checkout, a top-up on
`sampleOccupied` (current customer Andi) with checkout customer Budi
overwrites `currentCustomer` to Budi, contradicting the claim that top-up
leaves `currentCustomer` unchanged. -/
theorem topup_customer_counterexample :
    ((checkout1TableWrite sampleOccupied (some 15) "Budi" 999999).bind
        (fun u => applyUpdate sampleOccupied u)).map Table.currentCustomer
      = some (some "Budi") ∧
    sampleOccupied.currentCustomer = some "Andi" ∧
    (some "Budi" : Option String) ≠ some "Andi" := by decide

/-- Claim C7 (amended): in the part_000 checkout a top-up touches only
`endTime` and `duration` — `status`, `startTime`, `currentCustomer` and
`costPerHour` are unchanged; in the part_001 checkout a top-up leaves
`startTime` and `costPerHour` unchanged and re-asserts `status = occupied`,
but overwrites `currentCustomer` with the customer name of the checkout. -/
theorem topup_frame (t : Table) (x e d s : Nat) (cust : String) (now : Nat)
    (hocc : t.status = .occupied) (het : t.endTime = some e) (he0 : 0 < e)
    (hdur : t.duration = some d) (hst : t.startTime = some s) (hx : 0 < x) :
    ((checkoutTableWrite t (some x) cust now).status = none ∧
     (checkoutTableWrite t (some x) cust now).startTime = .keep ∧
     (checkoutTableWrite t (some x) cust now).currentCustomer = .keep ∧
     applyUpdate t (checkoutTableWrite t (some x) cust now) =
       some { t with
              endTime := some (e + x * 60 * 1000)
              duration := some (d + x) }) ∧
    (checkout1TableWrite t (some x) cust now =
       some { status := some .occupied
              startTime := .set s
              endTime := .set (e + x * 60 * 1000)
              duration := .set (d + x)
              currentCustomer := .set cust } ∧
     applyUpdate t { status := some .occupied
                     startTime := .set s
                     endTime := .set (e + x * 60 * 1000)
                     duration := .set (d + x)
                     currentCustomer := .set cust } =
       some { t with
              status := .occupied
              startTime := some s
              endTime := some (e + x * 60 * 1000)
              duration := some (d + x)
              currentCustomer := some cust }) := by
  have hx' : (x != 0) = true := by simp [Nat.pos_iff_ne_zero.mp hx]
  have he' : (e != 0) = true := by simp [Nat.pos_iff_ne_zero.mp he0]
  have hw : checkoutTableWrite t (some x) cust now =
      { endTime := .set (e + x * 60 * 1000), duration := .set (d + x) } := by
    simp [checkoutTableWrite, hocc, het, hdur, jsOrNum, truthyNum, hx',
          jsOrNum_some_zero]
    omega
  have hw1 : checkout1TableWrite t (some x) cust now =
      some { status := some .occupied
             startTime := .set s
             endTime := .set (e + x * 60 * 1000)
             duration := .set (d + x)
             currentCustomer := .set cust } := by
    have hxt : truthyNum (some x) = true := by simp [truthyNum, hx']
    have hte : truthyNum (some e) = true := by simp [truthyNum, he']
    simp [checkout1TableWrite, hocc, het, hst, hdur, hxt, hte, jsOrNum_some_zero]
  refine ⟨⟨by rw [hw], by rw [hw], by rw [hw], by rw [hw]; rfl⟩, hw1, rfl⟩

/-- Claim C7, witness: the theorem applied to `sampleOccupied` with a
15-minute top-up; the part_000 write carries no status, startTime or
customer change. -/
theorem topup_frame_witness :
    sampleOccupied.status = .occupied ∧
    ((checkoutTableWrite sampleOccupied (some 15) "Budi" 5000000).status = none ∧
     (checkoutTableWrite sampleOccupied (some 15) "Budi" 5000000).startTime = .keep ∧
     (checkoutTableWrite sampleOccupied (some 15) "Budi" 5000000).currentCustomer = .keep ∧
     applyUpdate sampleOccupied
         (checkoutTableWrite sampleOccupied (some 15) "Budi" 5000000) =
       some { sampleOccupied with
              endTime := some (3601000 + 15 * 60 * 1000)
              duration := some (60 + 15) }) :=
  ⟨rfl,
   (topup_frame sampleOccupied 15 3601000 60 1000 "Budi" 5000000
      rfl rfl (by decide) rfl rfl (by decide)).1⟩

/-! ## Claim C8 — auto-expiry idempotence -/

/-- Claim C8: for an occupied table whose `endTime` is a positive timestamp
already reached by `now`, the auto-expiry check issues its reset write, whose
application makes the table available with `startTime`, `endTime` and
`currentCustomer` deleted and `duration` 0; rerunning the check on the result
at any later time issues no write at all (a no-op). -/
theorem autoExpiry_idempotent (t : Table) (now e : Nat)
    (hst : t.status = .occupied) (het : t.endTime = some e)
    (hpos : 0 < e) (hpast : e ≤ now) :
    autoExpiryCheck now t = some autoExpiryWrite ∧
    applyUpdate t autoExpiryWrite =
      some { t with
             status := .available
             startTime := none
             endTime := none
             duration := some 0
             currentCustomer := none } ∧
    (∀ now2, autoExpiryCheck now2
        { t with
          status := .available
          startTime := none
          endTime := none
          duration := some 0
          currentCustomer := none } = none) := by
  refine ⟨?_, rfl, fun now2 => rfl⟩
  simp only [autoExpiryCheck, hst, het]
  rw [if_pos ⟨Nat.pos_iff_ne_zero.mp hpos, hpast⟩]

/-- Claim C8, witness: the theorem applied to `sampleExpired` at time
4000000, past its end time 3601000. -/
theorem autoExpiry_idempotent_witness :
    sampleExpired.status = .occupied ∧ sampleExpired.endTime = some 3601000 ∧
    0 < 3601000 ∧ 3601000 ≤ 4000000 ∧
    (autoExpiryCheck 4000000 sampleExpired = some autoExpiryWrite ∧
     applyUpdate sampleExpired autoExpiryWrite =
       some { sampleExpired with
              status := .available
              startTime := none
              endTime := none
              duration := some 0
              currentCustomer := none } ∧
     (∀ now2, autoExpiryCheck now2
        { sampleExpired with
          status := .available
          startTime := none
          endTime := none
          duration := some 0
          currentCustomer := none } = none)) :=
  ⟨rfl, rfl, by decide, by decide,
   autoExpiry_idempotent sampleExpired 4000000 3601000 rfl rfl (by decide) (by decide)⟩

/-! ## Claim C9 — table-number resolver -/

/-- Claim C9, counterexample: the name Meja 0 resolves to channel 0 at any
position, so the resolver does not always return a number of at least 1. -/
theorem deriveTableNumber_counterexample :
    deriveTableNumber (some "Meja 0") 0 = 0 ∧
    ¬ 1 ≤ deriveTableNumber (some "Meja 0") 0 := by decide

/-- Claim C9 (amended): the resolver returns `position + 1` when the name is
absent (or empty) or contains no decimal digit, and otherwise the numeric
value of the first maximal run of decimal digits in the name; the fallback
`position + 1` is always at least 1, but the digit-run value can be 0, so the
result is not always at least 1.  Meja 3 at position 0 resolves to 3 and
VIP Room at position 2 resolves to 3. -/
theorem deriveTableNumber_characterization :
    (∀ idx, deriveTableNumber none idx = idx + 1) ∧
    (∀ s idx, s.toList.any Char.isDigit = false →
        deriveTableNumber (some s) idx = idx + 1) ∧
    (∀ s idx, s.toList.any Char.isDigit = true →
        deriveTableNumber (some s) idx =
          parseDigits ((s.toList.dropWhile (fun c => !c.isDigit)).takeWhile Char.isDigit)) ∧
    (∀ s idx, s.toList.any Char.isDigit = false →
        1 ≤ deriveTableNumber (some s) idx) ∧
    deriveTableNumber (some "Meja 3") 0 = 3 ∧
    deriveTableNumber (some "VIP Room") 2 = 3 := by
  refine ⟨fun idx => rfl, ?_, ?_, ?_, by decide, by decide⟩
  · intro s idx h
    by_cases hs : s = ""
    · simp [deriveTableNumber, hs]
    · rw [deriveTableNumber_some s idx hs, h]; rfl
  · intro s idx h
    have hs : s ≠ "" := by
      intro hs; rw [hs] at h; simp at h
    rw [deriveTableNumber_some s idx hs, h]; rfl
  · intro s idx h
    by_cases hs : s = ""
    · simp [deriveTableNumber, hs]
    · rw [deriveTableNumber_some s idx hs, h]; simp

/-- Claim C9, witness: the amended theorem applied to the two named examples,
Meja 3 at position 0 (digit case) and VIP Room at position 2 (fallback). -/
theorem deriveTableNumber_characterization_witness :
    "VIP Room".toList.any Char.isDigit = false ∧
    deriveTableNumber (some "VIP Room") 2 = 3 ∧
    "Meja 3".toList.any Char.isDigit = true ∧
    deriveTableNumber (some "Meja 3") 0 =
      parseDigits (("Meja 3".toList.dropWhile (fun c => !c.isDigit)).takeWhile
        Char.isDigit) :=
  ⟨by decide,
   deriveTableNumber_characterization.2.1 "VIP Room" 2 (by decide),
   by decide,
   deriveTableNumber_characterization.2.2.1 "Meja 3" 0 (by decide)⟩

/-! ## Claim C10 — the lamp-off step of the manual stop -/

/-- Claim C10: the identifier `tables` is not bound anywhere in the scope of
`StopTableModal`, so the lamp-off block of `handleConfirmStop` raises a
ReferenceError that its inner catch swallows: for every table, the run still
performs the reset store write and closes the modal with no error alert, and
dispatches no lamp command at all. -/
theorem stopModal_lampOff_always_fails :
    "tables" ∉ stopTableModalScope ∧
    ∀ table : Table, handleConfirmStop none table =
      { storeWrites := [(table.id, stopResetWrite)]
        lampCommands := []
        modalClosed := true
        alertMsg := none } :=
  ⟨by decide, fun table => rfl⟩

end Ygyi
